import Mathlib

/-!
Shallow embedding of the `rdd` crate (src/dd.rs): a builder/runner for an
external raw-data-copy binary.

External process launches are modelled by an oracle
`OS : String → List String → Except String ProcOutput`: `Except.error msg`
is an OS-level launch failure (the `Err` arm of `Command::output`, carrying
the io error's message), and a `ProcOutput` carries the exit status together
with the UTF-8 decoding of the captured stdout and stderr bytes (`none`
standing for bytes that are not valid UTF-8, the failing case of
`String::from_utf8`).  `Dd.spawn` additionally returns the list of process
invocations attempted, in order, so that properties of the form "no process
for the main operation is spawned" can be stated.  Rust `u16` values are
modelled as `Nat`; the parser below enforces the 16-bit bound exactly where
the source's `parse::<u16>` does.
-/

/-- Exit status plus captured output of one finished process
(`std::process::Output`).  `stdout` and `stderr` hold the UTF-8 decoding of
the captured byte vectors, `none` when the bytes are not valid UTF-8. -/
structure ProcOutput where
  success : Bool
  stdout : Option String
  stderr : Option String
  deriving DecidableEq, Repr

/-- The error taxonomy `DdError` of src/dd.rs (lines 5-30).  `CantRun`
carries the message of the `std::io::Error` it wraps. -/
inductive DdError where
  | CantRun (msg : String)
  | Missing
  | InvalidUTF8
  | InvalidOutput
  | OldVersion
  | NoInput
  deriving DecidableEq, Repr

/-- The ambient operating system as the program observes it through
`Command::output`: from binary name and argument list to either a launch
failure (with the io error's message) or the finished process's output. -/
abbrev OS := String → List String → Except String ProcOutput

/-- One attempted process launch: the binary and the argument list handed
to `Command::output`. -/
abbrev Invocation := String × List String

/-- The configuration struct `Dd` (src/dd.rs lines 33-39). -/
structure Dd where
  binary : String
  min_version : Option (Nat × Nat)
  input : Option String
  output : Option String
  options : List String
  deriving DecidableEq, Repr

/-- `Dd::new` (src/dd.rs 49-57). -/
def Dd.new (binary : String) : Dd :=
  { binary := binary, input := none, output := none, min_version := none,
    options := [] }

/-- `Dd::arg` (src/dd.rs 129-131): push one `key=value` string onto
`options`. -/
def Dd.arg (d : Dd) (key value : String) : Dd :=
  { d with options := d.options ++ [key ++ "=" ++ value] }

/-- The setter `Dd::min_version` (src/dd.rs 172-175); named apart from the
field it overwrites because Lean reserves the field's name for its
projection. -/
def Dd.setMinVersion (d : Dd) (version : Nat × Nat) : Dd :=
  { d with min_version := some version }

/-- The setter `Dd::input` (src/dd.rs 184-187); named apart from the field
it overwrites. -/
def Dd.setInput (d : Dd) (input : String) : Dd :=
  { d with input := some input }

/-- The setter `Dd::output` (src/dd.rs 196-199); named apart from the field
it overwrites. -/
def Dd.setOutput (d : Dd) (output : String) : Dd :=
  { d with output := some output }

/-- `Dd::bs` (src/dd.rs 211-214). -/
def Dd.bs (d : Dd) (value : String) : Dd := d.arg "bs" value

/-- `Dd::cbs` (src/dd.rs 220-223). -/
def Dd.cbs (d : Dd) (value : String) : Dd := d.arg "cbs" value

/-- `Dd::count` (src/dd.rs 234-237); `u64::to_string` is `toString`. -/
def Dd.count (d : Dd) (value : Nat) : Dd := d.arg "count" (toString value)

/-- `Dd::seek` (src/dd.rs 248-251). -/
def Dd.seek (d : Dd) (value : Nat) : Dd := d.arg "seek" (toString value)

/-- `Dd::skip` (src/dd.rs 262-265). -/
def Dd.skip (d : Dd) (value : Nat) : Dd := d.arg "skip" (toString value)

/-- `Dd::status` (src/dd.rs 276-279). -/
def Dd.status (d : Dd) (value : String) : Dd := d.arg "status" value

/-- `Dd::conv` (src/dd.rs 291-294). -/
def Dd.conv (d : Dd) (value : String) : Dd := d.arg "conv" value

/-- `Dd::ibs` (src/dd.rs 305-308). -/
def Dd.ibs (d : Dd) (value : String) : Dd := d.arg "ibs" value

/-- `Dd::iflag` (src/dd.rs 319-322). -/
def Dd.iflag (d : Dd) (value : String) : Dd := d.arg "iflag" value

/-- `Dd::obs` (src/dd.rs 333-336). -/
def Dd.obs (d : Dd) (value : String) : Dd := d.arg "obs" value

/-- `Dd::oflag` (src/dd.rs 347-350). -/
def Dd.oflag (d : Dd) (value : String) : Dd := d.arg "oflag" value

/-- Rust `str::split_whitespace`, one character at a time: split on runs of
whitespace, discarding empty tokens; `acc` holds the current token's
characters in reverse.  (The source's `char::is_whitespace` covers Unicode
whitespace; `Char.isWhitespace` is the ASCII subset, which coincides with it
on every string considered here.) -/
def splitWsAux : List Char → List Char → List String
  | [], acc => if acc.isEmpty then [] else [String.mk acc.reverse]
  | c :: cs, acc =>
    if c.isWhitespace then
      if acc.isEmpty then splitWsAux cs []
      else String.mk acc.reverse :: splitWsAux cs []
    else splitWsAux cs (c :: acc)

/-- Rust `str::split_whitespace` on a string. -/
def splitWhitespace (s : String) : List String := splitWsAux s.data []

/-- Rust `str::split` at the period character, keeping empty segments (the
empty string yields one empty segment). -/
def splitDotAux : List Char → List Char → List String
  | [], acc => [String.mk acc.reverse]
  | c :: cs, acc =>
    if c = '.' then String.mk acc.reverse :: splitDotAux cs []
    else splitDotAux cs (c :: acc)

/-- Rust `str::split` at the period character, on a string. -/
def splitDot (s : String) : List String := splitDotAux s.data []

/-- Rust `u16::from_str` after the optional sign: one or more ASCII digits
whose value fits in 16 bits; anything else fails. -/
def parseU16Digits (cs : List Char) : Option Nat :=
  if cs.isEmpty then none
  else if cs.all Char.isDigit then
    let n := cs.foldl (fun a c => a * 10 + (c.toNat - 48)) 0
    if n ≤ 65535 then some n else none
  else none

/-- Rust `str::parse::<u16>()`: an optional leading plus sign, then digits
fitting in 16 bits. -/
def parseU16 (s : String) : Option Nat :=
  match s.data with
  | '+' :: cs => parseU16Digits cs
  | cs => parseU16Digits cs

/-- `version_parts[i].parse::<u16>().unwrap_or(0)` (src/dd.rs 108-109): a
failed parse is tolerated as the value 0. -/
def parseVersionComponent (s : String) : Nat := (parseU16 s).getD 0

/-- src/dd.rs 93-110 inside `Dd::check`: take the third whitespace token of
the decoded stdout as the version string (absence is `InvalidOutput`), split
it at the period into exactly two parts (any other count is
`InvalidOutput`), and parse each part tolerantly. -/
def parseVersion (version_str : String) : Except DdError (Nat × Nat) :=
  match (splitWhitespace version_str)[2]? with
  | none => Except.error DdError.InvalidOutput
  | some token =>
    let version_parts := splitDot token
    if version_parts.length ≠ 2 then Except.error DdError.InvalidOutput
    else Except.ok (parseVersionComponent (version_parts.getD 0 ""),
                    parseVersionComponent (version_parts.getD 1 ""))

/-- The Rust ordered comparison on `(u16, u16)` pairs: lexicographic, major
component first. -/
def versionLt (a b : Nat × Nat) : Bool :=
  a.1 < b.1 || (a.1 == b.1 && a.2 < b.2)

/-- src/dd.rs 112-117 inside `Dd::check`: when a minimum version is
configured, a strictly smaller parsed version is `OldVersion`. -/
def checkVersion (min_version : Option (Nat × Nat)) (version : Nat × Nat) :
    Except DdError Unit :=
  match min_version with
  | some mv =>
    if versionLt version mv then Except.error DdError.OldVersion
    else Except.ok ()
  | none => Except.ok ()

/-- `Dd::check` (src/dd.rs 67-122) over the OS oracle: run
`<binary> --version`; a launch failure is `Missing`; a non-success exit
reports `CantRun` with the decoded stderr (`InvalidUTF8` when stderr does
not decode); otherwise the decoded stdout (`InvalidUTF8` when it does not
decode) is parsed and the version policy applied. -/
def Dd.check (d : Dd) (os : OS) : Except DdError Unit :=
  match os d.binary ["--version"] with
  | Except.error _ => Except.error DdError.Missing
  | Except.ok output =>
    if !output.success then
      match output.stderr with
      | none => Except.error DdError.InvalidUTF8
      | some stderr => Except.error (DdError.CantRun stderr)
    else
      match output.stdout with
      | none => Except.error DdError.InvalidUTF8
      | some version_str =>
        match parseVersion version_str with
        | Except.error e => Except.error e
        | Except.ok version => checkVersion d.min_version version

/-- `Dd::set_args` (src/dd.rs 141-160): the argument list handed to the
main command — `if=<input>` (mandatory, else `NoInput`), then `of=<output>`
when set, then the accumulated options in order.  The source pushes these
into the `Command`; here the assembled list is returned. -/
def Dd.set_args (d : Dd) : Except DdError (List String) :=
  match d.input with
  | none => Except.error DdError.NoInput
  | some input =>
    Except.ok (("if=" ++ input) ::
      ((match d.output with
        | some output => ["of=" ++ output]
        | none => []) ++ d.options))

/-- What a call to `Dd::spawn` yields: the final configuration (the source
takes `&mut self`), the result, and the invocations attempted, in order. -/
structure SpawnResult where
  dd : Dd
  result : Except DdError String
  trace : List Invocation
  deriving Repr

/-- `Dd::spawn` (src/dd.rs 361-383).  `check` performs exactly one
invocation, the version query; the main command is invoked only after
`check` and `set_args` both succeed.  A launch failure of the main command
is `CantRun` with the io message; a non-success exit is `CantRun` with the
decoded stderr, a fixed placeholder standing in when stderr does not decode
(`unwrap_or`); on success the decoded stdout is returned (`InvalidUTF8`
when it does not decode).  No field of `self` is assigned anywhere on this
path, so the returned configuration is the one passed in. -/
def Dd.spawn (d : Dd) (os : OS) : SpawnResult :=
  let checkTrace : List Invocation := [(d.binary, ["--version"])]
  match d.check os with
  | Except.error e => ⟨d, Except.error e, checkTrace⟩
  | Except.ok _ =>
    match d.set_args with
    | Except.error e => ⟨d, Except.error e, checkTrace⟩
    | Except.ok args =>
      match os d.binary args with
      | Except.error e =>
        ⟨d, Except.error (DdError.CantRun e), checkTrace ++ [(d.binary, args)]⟩
      | Except.ok output =>
        if output.success then
          match output.stdout with
          | some out => ⟨d, Except.ok out, checkTrace ++ [(d.binary, args)]⟩
          | none =>
            ⟨d, Except.error DdError.InvalidUTF8,
              checkTrace ++ [(d.binary, args)]⟩
        else
          ⟨d, Except.error (DdError.CantRun
              (output.stderr.getD "unable to get stderr from \x27dd\x27")),
            checkTrace ++ [(d.binary, args)]⟩

/-- A stub OS whose every launch succeeds with the given output. -/
def constOS (out : ProcOutput) : OS := fun _ _ => Except.ok out

/-- A stub OS on which every launch fails at the OS level. -/
def downOS : OS := fun _ _ => Except.error "No such file or directory"

/-- A stub OS answering the version query with `vout` and every other
launch with `mout`. -/
def twoPhaseOS (vout mout : ProcOutput) : OS :=
  fun _ args =>
    if args = ["--version"] then Except.ok vout else Except.ok mout

/-- A well-behaved version-query response used by several witnesses. -/
def goodVersionOutput : ProcOutput :=
  { success := true, stdout := some "dd (stub) 8.32", stderr := some "" }

/-- Every error `parseVersion` produces is `InvalidOutput`. -/
theorem parseVersion_error_eq (s : String) (e : DdError)
    (h : parseVersion s = Except.error e) : e = DdError.InvalidOutput := by
  unfold parseVersion at h
  cases h2 : (splitWhitespace s)[2]? with
  | none =>
    rw [h2] at h
    injection h with h3
    exact h3.symm
  | some t =>
    rw [h2] at h
    simp only at h
    by_cases hl : (splitDot t).length ≠ 2
    · rw [if_pos hl] at h
      injection h with h3
      exact h3.symm
    · rw [if_neg hl] at h
      cases h

/-- C1: with `input` unset, `spawn` fails — with `NoInput` whenever the
pre-flight check succeeds (a failing check propagates its own error instead)
— and the only process ever launched is the pre-flight version query: no
process for the main data-copy operation is spawned. -/
theorem spawn_no_input (d : Dd) (os : OS) (h : d.input = none) :
    (∃ e, (d.spawn os).result = Except.error e) ∧
    (d.check os = Except.ok () →
      (d.spawn os).result = Except.error DdError.NoInput) ∧
    (d.spawn os).trace = [(d.binary, ["--version"])] := by
  have hs : d.set_args = Except.error DdError.NoInput := by
    unfold Dd.set_args
    rw [h]
  cases hc : d.check os with
  | error e =>
    refine ⟨⟨e, ?_⟩, ?_, ?_⟩ <;> simp [Dd.spawn, hc]
  | ok u =>
    cases u
    refine ⟨⟨DdError.NoInput, ?_⟩, ?_, ?_⟩ <;> simp [Dd.spawn, hc, hs]

/-- C1 witness: the fresh configuration `Dd.new "dd"` (no input) on a stub
OS with a well-formed version response. -/
theorem spawn_no_input_witness :
    (∃ e, ((Dd.new "dd").spawn (constOS goodVersionOutput)).result
        = Except.error e) ∧
    ((Dd.new "dd").check (constOS goodVersionOutput) = Except.ok () →
      ((Dd.new "dd").spawn (constOS goodVersionOutput)).result
        = Except.error DdError.NoInput) ∧
    ((Dd.new "dd").spawn (constOS goodVersionOutput)).trace
      = [("dd", ["--version"])] :=
  spawn_no_input (Dd.new "dd") (constOS goodVersionOutput) rfl

/-- C2: a failing pre-flight check is propagated verbatim by `spawn`, and
the main data-copy process is never launched: the invocation trace holds
only the version query. -/
theorem spawn_check_error (d : Dd) (os : OS) (e : DdError)
    (h : d.check os = Except.error e) :
    (d.spawn os).result = Except.error e ∧
    (d.spawn os).trace = [(d.binary, ["--version"])] := by
  constructor <;> simp [Dd.spawn, h]

/-- C2 witness: on an OS where every launch fails, the check's `Missing`
error is what `spawn` returns, and only the version query was attempted. -/
theorem spawn_check_error_witness :
    ((Dd.new "dd").spawn downOS).result = Except.error DdError.Missing ∧
    ((Dd.new "dd").spawn downOS).trace = [("dd", ["--version"])] :=
  spawn_check_error (Dd.new "dd") downOS DdError.Missing rfl

/-- C9: an OS-level launch failure of the version query (binary absent, not
executable, or any failure distinct from a non-zero exit) makes the
pre-flight check fail with `Missing`. -/
theorem check_missing (d : Dd) (os : OS) (msg : String)
    (h : os d.binary ["--version"] = Except.error msg) :
    d.check os = Except.error DdError.Missing := by
  simp [Dd.check, h]

/-- C9 witness: a fresh configuration on an OS where every launch fails. -/
theorem check_missing_witness :
    (Dd.new "dd").check downOS = Except.error DdError.Missing :=
  check_missing (Dd.new "dd") downOS "No such file or directory" rfl

/-- C10: `spawn` never mutates the configuration: whatever the OS does, the
`Dd` value it hands back (the final state of `&mut self`) is the
configuration it started from, every field included. -/
theorem spawn_preserves_config (d : Dd) (os : OS) : (d.spawn os).dd = d := by
  cases hc : d.check os with
  | error e => simp [Dd.spawn, hc]
  | ok u =>
    cases ha : d.set_args with
    | error e => simp [Dd.spawn, hc, ha]
    | ok args =>
      cases hos : os d.binary args with
      | error e => simp [Dd.spawn, hc, ha, hos]
      | ok output =>
        cases hsu : output.success with
        | false => simp [Dd.spawn, hc, ha, hos, hsu]
        | true =>
          cases hso : output.stdout <;>
            simp [Dd.spawn, hc, ha, hos, hsu, hso]

/-- C3: with `input` set, the assembled argument list is `if=<input>` first,
then `of=<output>` when an output is set, then every accumulated option
string in setter-call order; in particular the chain
`input("a").output("b").bs("4M").count(5)` assembles exactly
`["if=a", "of=b", "bs=4M", "count=5"]`. -/
theorem set_args_order (d : Dd) (i : String) (h : d.input = some i) :
    d.set_args = Except.ok (("if=" ++ i) ::
      ((match d.output with
        | some o => ["of=" ++ o]
        | none => []) ++ d.options)) ∧
    (((((Dd.new "dd").setInput "a").setOutput "b").bs "4M").count 5).set_args
      = Except.ok ["if=a", "of=b", "bs=4M", "count=5"] := by
  constructor
  · unfold Dd.set_args
    rw [h]
  · rfl

/-- C3 witness: the general conclusion instantiated at the configuration
`input("a").output("b").bs("4M").count(5)`. -/
theorem set_args_order_witness :
    (((((Dd.new "dd").setInput "a").setOutput "b").bs "4M").count 5).set_args
      = Except.ok (("if=" ++ "a") ::
        ((match (((((Dd.new "dd").setInput "a").setOutput "b").bs "4M").count
            5).output with
          | some o => ["of=" ++ o]
          | none => []) ++
          (((((Dd.new "dd").setInput "a").setOutput "b").bs "4M").count
            5).options)) ∧
    (((((Dd.new "dd").setInput "a").setOutput "b").bs "4M").count 5).set_args
      = Except.ok ["if=a", "of=b", "bs=4M", "count=5"] :=
  set_args_order
    (((((Dd.new "dd").setInput "a").setOutput "b").bs "4M").count 5) "a" rfl

/-- C4: in the pre-flight check, the decoded version-query stdout is
tokenized on whitespace and the third token (index 2) is taken as the
version string; if that token is absent, or splitting it at the period does
not yield exactly two parts, the check fails with `InvalidOutput`. -/
theorem check_invalid_output (d : Dd) (os : OS) (out : ProcOutput)
    (s : String) (hos : os d.binary ["--version"] = Except.ok out)
    (hsucc : out.success = true) (hstdout : out.stdout = some s) :
    ((splitWhitespace s)[2]? = none →
      d.check os = Except.error DdError.InvalidOutput) ∧
    (∀ t, (splitWhitespace s)[2]? = some t → (splitDot t).length ≠ 2 →
      d.check os = Except.error DdError.InvalidOutput) := by
  constructor
  · intro h2
    simp [Dd.check, hos, hsucc, hstdout, parseVersion, h2]
  · intro t h2 hlen
    simp [Dd.check, hos, hsucc, hstdout, parseVersion, h2, hlen]

/-- C4 witness: a stub whose version-query response `"dd"` has fewer than
three whitespace tokens. -/
theorem check_invalid_output_witness :
    ((splitWhitespace "dd")[2]? = none →
      (Dd.new "dd").check (constOS ⟨true, some "dd", some ""⟩)
        = Except.error DdError.InvalidOutput) ∧
    (∀ t, (splitWhitespace "dd")[2]? = some t → (splitDot t).length ≠ 2 →
      (Dd.new "dd").check (constOS ⟨true, some "dd", some ""⟩)
        = Except.error DdError.InvalidOutput) :=
  check_invalid_output (Dd.new "dd") (constOS ⟨true, some "dd", some ""⟩)
    ⟨true, some "dd", some ""⟩ "dd" rfl rfl rfl

/-- C5: each dot-separated version part is parsed as an unsigned 16-bit
integer and a parse failure yields 0 instead of an error; in particular the
version line `"dd (x) abc.def"` parses to version (0, 0) and, with no
minimum version configured, does not fail the check by itself. -/
theorem version_parse_tolerant (s : String) (h : parseU16 s = none) :
    parseVersionComponent s = 0 ∧
    parseVersion "dd (x) abc.def" = Except.ok (0, 0) ∧
    (∀ d : Dd, d.min_version = none →
      d.check (constOS ⟨true, some "dd (x) abc.def", some ""⟩)
        = Except.ok ()) := by
  refine ⟨?_, rfl, ?_⟩
  · simp [parseVersionComponent, h]
  · intro d hmv
    show checkVersion d.min_version (0, 0) = Except.ok ()
    rw [hmv]
    rfl

/-- C5 witness: the non-numeric part `"abc"` (as in `"dd (x) abc.def"`)
fails the 16-bit parse and is tolerated as 0. -/
theorem version_parse_tolerant_witness :
    parseVersionComponent "abc" = 0 ∧
    parseVersion "dd (x) abc.def" = Except.ok (0, 0) ∧
    (∀ d : Dd, d.min_version = none →
      d.check (constOS ⟨true, some "dd (x) abc.def", some ""⟩)
        = Except.ok ()) :=
  version_parse_tolerant "abc" rfl

/-- C6: when a minimum version is configured, the parsed (major, minor)
pair is compared lexicographically (major first, then minor) and the check
fails with `OldVersion` exactly when the parsed version is strictly less;
with no minimum configured the check never yields `OldVersion`.  In
particular `"dd (stub) 8.32"` parses to (8, 32), which fails against
minimum (8, 33) and succeeds against (8, 32). -/
theorem min_version_policy :
    (∀ a b : Nat × Nat, versionLt a b = true ↔
      a.1 < b.1 ∨ (a.1 = b.1 ∧ a.2 < b.2)) ∧
    (∀ mv v, checkVersion (some mv) v = Except.error DdError.OldVersion ↔
      versionLt v mv = true) ∧
    (∀ (d : Dd) (os : OS), d.min_version = none →
      d.check os ≠ Except.error DdError.OldVersion) ∧
    parseVersion "dd (stub) 8.32" = Except.ok (8, 32) ∧
    ((Dd.new "dd").setMinVersion (8, 33)).check (constOS goodVersionOutput)
      = Except.error DdError.OldVersion ∧
    ((Dd.new "dd").setMinVersion (8, 32)).check (constOS goodVersionOutput)
      = Except.ok () := by
  refine ⟨?_, ?_, ?_, rfl, rfl, rfl⟩
  · intro a b
    simp [versionLt, Bool.or_eq_true, Bool.and_eq_true, decide_eq_true_eq,
      beq_iff_eq]
  · intro mv v
    cases hvl : versionLt v mv <;> simp [checkVersion, hvl]
  · intro d os hmv hcontra
    cases hos : os d.binary ["--version"] with
    | error e => simp [Dd.check, hos] at hcontra
    | ok output =>
      cases hsu : output.success with
      | false =>
        cases hse : output.stderr <;>
          simp [Dd.check, hos, hsu, hse] at hcontra
      | true =>
        cases hso : output.stdout with
        | none => simp [Dd.check, hos, hsu, hso] at hcontra
        | some s =>
          cases hpv : parseVersion s with
          | error e =>
            have he := parseVersion_error_eq s e hpv
            simp [Dd.check, hos, hsu, hso, hpv, he] at hcontra
          | ok v =>
            simp [Dd.check, hos, hsu, hso, hpv, checkVersion, hmv]
              at hcontra

/-- C7: when the main data-copy process exits with non-success status,
`spawn` fails with `CantRun` carrying the decoded stderr, a fixed
placeholder standing in when the decoding fails — never the
invalid-encoding error at this stage. -/
theorem spawn_cant_run (d : Dd) (os : OS) (args : List String)
    (out : ProcOutput) (hc : d.check os = Except.ok ())
    (ha : d.set_args = Except.ok args)
    (hos : os d.binary args = Except.ok out)
    (hsu : out.success = false) :
    (d.spawn os).result = Except.error (DdError.CantRun
      (out.stderr.getD "unable to get stderr from \x27dd\x27")) ∧
    (d.spawn os).result ≠ Except.error DdError.InvalidUTF8 := by
  have hr : (d.spawn os).result = Except.error (DdError.CantRun
      (out.stderr.getD "unable to get stderr from \x27dd\x27")) := by
    simp [Dd.spawn, hc, ha, hos, hsu]
  refine ⟨hr, ?_⟩
  rw [hr]
  simp

/-- C7 witness: `input("a")` on a stub OS whose version query succeeds and
whose main invocation exits unsuccessfully with undecodable stderr, so the
placeholder diagnostic is used. -/
theorem spawn_cant_run_witness :
    ((((Dd.new "dd").setInput "a").spawn
        (twoPhaseOS goodVersionOutput ⟨false, none, none⟩)).result
      = Except.error (DdError.CantRun
        ((⟨false, none, none⟩ : ProcOutput).stderr.getD
          "unable to get stderr from \x27dd\x27"))) ∧
    (((Dd.new "dd").setInput "a").spawn
        (twoPhaseOS goodVersionOutput ⟨false, none, none⟩)).result
      ≠ Except.error DdError.InvalidUTF8 :=
  spawn_cant_run ((Dd.new "dd").setInput "a")
    (twoPhaseOS goodVersionOutput ⟨false, none, none⟩) ["if=a"]
    ⟨false, none, none⟩ rfl rfl rfl rfl

/-- C8: repeated calls of the same single-valued setter overwrite — only
the later `input`, `output` or `min_version` value stands — while option
setters accumulate: two `bs` calls append two `key=value` strings which
both reach the assembled argument list, in call order. -/
theorem setter_overwrite_vs_accumulate (d : Dd) (a b : String)
    (v w : Nat × Nat) :
    (d.setInput a).setInput b = d.setInput b ∧
    (d.setOutput a).setOutput b = d.setOutput b ∧
    (d.setMinVersion v).setMinVersion w = d.setMinVersion w ∧
    ((d.bs a).bs b).options = d.options ++ ["bs=" ++ a, "bs=" ++ b] ∧
    ((((Dd.new "dd").setInput "i").bs a).bs b).set_args
      = Except.ok ["if=i", "bs=" ++ a, "bs=" ++ b] := by
  refine ⟨rfl, rfl, rfl, ?_, rfl⟩
  simp [Dd.bs, Dd.arg]
